import Mathlib

/-!
Verification development for the simulation-x stage show core.

The definitions below are a shallow embedding of the stage-operator module
(`src/Stage.jsx`) and the audience voting client.  JS numbers that only ever
hold integers (timestamps, powers, stability) are modelled as `Int`; round
ids as `Nat`.  A missing record in the realtime store is an `Option`; a
missing or falsy `power` field on a vote entry is `Option Int` with the
JS `power || 1` coercion made explicit.  The store itself is a record of
the four top-level paths, with the vote ledger as a function from round id
to the list of entries pushed under that round.
-/

namespace SimulationX

/-- Aggregated per-type vote scores, as accumulated by the tally loops. -/
structure Scores where
  stable : Int
  glitch : Int
  override : Int
deriving DecidableEq, Repr

/-- Entry of the vote ledger at `votes/{roundId}/{entryId}`.  The `type`
field is an open string (malformed writers may store anything); `power`
is `none` when the field is absent. -/
structure VoteEntry where
  type : String
  power : Option Int
  kind : String
  role : String
  deviceId : String
  ts : Int
deriving DecidableEq, Repr

/-- Embedding of `clamp` from Stage.jsx: `Math.max(min, Math.min(max, n))`. -/
def clamp (n lo hi : Int) : Int :=
  max lo (min hi n)

/-- Embedding of `dominantFromScores` from Stage.jsx: glitch is checked
against the maximum first, then override, else stable. -/
def dominantFromScores (s : Scores) : String :=
  if s.glitch = max s.stable (max s.glitch s.override) then "glitch"
  else if s.override = max s.stable (max s.glitch s.override) then "override"
  else "stable"

/-- Embedding of `calcDelta` from Stage.jsx. -/
def calcDelta (s : Scores) : Int :=
  s.stable * 1 + s.glitch * (-2) + s.override * (-3)

/-- Effective power of a ledger entry as read by the aggregation loops:
`Number(data[k]?.power || 1)`, so an absent or zero power counts as 1. -/
def effPower (e : VoteEntry) : Int :=
  match e.power with
  | none => 1
  | some p => if p = 0 then 1 else p

/-- One iteration of the aggregation loop body: add the entry's effective
power to the score of its type (an unrecognized type adds to no score). -/
def addEntry (acc : Scores) (e : VoteEntry) : Scores :=
  { stable := acc.stable + (if e.type = "stable" then effPower e else 0)
    glitch := acc.glitch + (if e.type = "glitch" then effPower e else 0)
    override := acc.override + (if e.type = "override" then effPower e else 0) }

/-- Embedding of the `for (const k in data)` aggregation loop shared by the
votes listener and the lock-timer handler in Stage.jsx. -/
def tally (entries : List VoteEntry) : Scores :=
  entries.foldl addEntry ⟨0, 0, 0⟩

/-- Raw value of the `power` field (0 when absent), used to state the
spec-side "sum of power over all ledger entries". -/
def rawPower (e : VoteEntry) : Int :=
  e.power.getD 0

/-- Sum of raw powers over a list of ledger entries. -/
def sumPower (entries : List VoteEntry) : Int :=
  (entries.map rawPower).sum

/-- Sum of effective powers over a list of ledger entries. -/
def sumEffPower (entries : List VoteEntry) : Int :=
  (entries.map effPower).sum

/-- Well-formed ledger entry per the data model: recognized type and a
power field literally 1 or 3. -/
def WellFormedEntry (e : VoteEntry) : Prop :=
  (e.type = "stable" ∨ e.type = "glitch" ∨ e.type = "override") ∧
    (e.power = some 1 ∨ e.power = some 3)

/-! ### Shared store records -/

/-- Session record at path `session`. -/
structure Session where
  state : String
  roundId : Nat
  endsAt : Int
  nextStartsAt : Int
  controllerId : String
  startedBy : Option String
  updatedAt : Int
deriving DecidableEq, Repr

/-- Director record at path `director`. -/
structure Director where
  mode : String
  autoRun : Bool
deriving DecidableEq, Repr

/-- World record at path `world`.  `lastDelta`/`lastScores` are absent
until the first lock-time aggregation writes them. -/
structure World where
  stability : Int
  dominant : String
  updatedAt : Int
  roundId : Nat
  lastDelta : Option Int
  lastScores : Option Scores
deriving DecidableEq, Repr

/-- The shared realtime store: the four top-level paths.  `session` absent
from the store is indistinguishable from the default waiting session (every
reader substitutes the same default), so it is kept total; `director` and
`world` have genuine existence checks in the code and stay `Option`. -/
structure DB where
  session : Session
  director : Option Director
  world : Option World
  votes : Nat → List VoteEntry

/-- Director record as seen by a client after the listener's defaulting
(`d ? {mode: d.mode || "normal", autoRun: !!d.autoRun} : ...`). -/
def localDirector (db : DB) : Director :=
  db.director.getD ⟨"normal", false⟩

/-- Director mode as read by the startRound guard: the stored value, or
`normal` when the record is absent. -/
def directorMode (db : DB) : String :=
  (db.director.map Director.mode).getD "normal"

/-- Current stability as read by the lock-timer handler
(`wNow.exists() ? wNow.val() : 70`). -/
def currentStability (db : DB) : Int :=
  (db.world.map World.stability).getD 70

/-- Constants shared by all processes (Stage.jsx / audience client). -/
def ACTIVE_SECONDS : Int := 20

/-- Locked-phase duration constant from Stage.jsx. -/
def LOCKED_SECONDS : Int := 6

/-- Auto-run wait duration constant from Stage.jsx. -/
def WAIT_SECONDS : Int := 8

/-- Per-device cooldown constant from the audience client. -/
def COOLDOWN_MS : Int := 2000

/-! ### Stage-operator store writes

The stage operator issues a sequence of store writes per action.  For
`startRound` the order of writes matters to the spec (the vote subtree for
the new round is removed before the Session write), so its effects are
modelled as an explicit list of store operations that is then folded over
the store. -/

/-- One write issued by the stage operator against the shared store. -/
inductive StoreOp where
  | setWorldOp (w : World)
  | setDirectorOp (d : Director)
  | removeVotesOp (r : Nat)
  | setSessionOp (s : Session)
deriving DecidableEq, Repr

/-- Predicate picking out writes that touch the Session record. -/
def StoreOp.isSessionWrite : StoreOp → Bool
  | .setSessionOp _ => true
  | _ => false

/-- Apply one store write to the store. -/
def applyOp (db : DB) : StoreOp → DB
  | .setWorldOp w => { db with world := some w }
  | .setDirectorOp d => { db with director := some d }
  | .removeVotesOp r =>
      { db with votes := fun r' => if r' = r then [] else db.votes r' }
  | .setSessionOp s => { db with session := s }

/-- Apply a sequence of store writes in order. -/
def applyOps (db : DB) (ops : List StoreOp) : DB :=
  ops.foldl applyOp db

/-- Writes issued by `ensureWorldInit` in Stage.jsx: seed the World record
if `world/stability` is absent, then seed the Director record if absent. -/
def ensureWorldInitOps (db : DB) (now : Int) : List StoreOp :=
  (if db.world.isNone then [.setWorldOp ⟨70, "stable", now, 0, none, none⟩] else [])
    ++ (if db.director.isNone then [.setDirectorOp ⟨"normal", false⟩] else [])

/-- Embedding of `ensureWorldInit` as a store transformer. -/
def ensureWorldInit (now : Int) (db : DB) : DB :=
  applyOps db (ensureWorldInitOps db now)

/-- Writes issued by one invocation of `startRound` in Stage.jsx.  After
`ensureWorldInit`, the director-mode and controller guards are read back
from the store; on rejection no further write happens, otherwise the vote
subtree for the incremented round id is removed and then the new active
Session is written. -/
def startRoundOps (stageId : String) (now : Int) (reason : String) (db : DB) :
    List StoreOp :=
  let initOps := ensureWorldInitOps db now
  let db1 := ensureWorldInit now db
  if directorMode db1 ≠ "normal" then initOps
  else if db1.session.controllerId ≠ "" ∧ db1.session.controllerId ≠ stageId then
    initOps
  else
    initOps ++
      [.removeVotesOp (db1.session.roundId + 1),
        .setSessionOp
          ⟨"active", db1.session.roundId + 1, now + ACTIVE_SECONDS * 1000, 0,
            stageId, some reason, now⟩]

/-- Embedding of `startRound` as a store transformer. -/
def startRound (stageId : String) (now : Int) (reason : String) (db : DB) : DB :=
  applyOps db (startRoundOps stageId now reason db)

/-- Embedding of the lock-timer handler scheduled by `startRound`: read the
round's ledger, tally it, write World, then write the locked Session. -/
def lockTimerFire (stageId : String) (now : Int) (nextRound : Nat) (db : DB) :
    DB :=
  let s := tally (db.votes nextRound)
  let delta := calcDelta s
  let nextStability := clamp (currentStability db + delta) 0 100
  { db with
    world := some
      ⟨nextStability, dominantFromScores s, now, nextRound, some delta, some s⟩
    session :=
      ⟨"locked", nextRound, now + LOCKED_SECONDS * 1000, 0, stageId, none, now⟩ }

/-- Embedding of `setAutoRun` from Stage.jsx: after `ensureWorldInit`,
update `director.autoRun`, and when turning auto-run on also write
`session.state = "waiting"`. -/
def setAutoRun (value : Bool) (now : Int) (db : DB) : DB :=
  let db1 := ensureWorldInit now db
  let db2 := { db1 with director := some ⟨(localDirector db).mode, value⟩ }
  if value then { db2 with session := { db2.session with state := "waiting" } }
  else db2

/-- Embedding of `freeze` from Stage.jsx. -/
def freeze (stageId : String) (now : Int) (db : DB) : DB :=
  let db1 := ensureWorldInit now db
  let db2 := { db1 with director := some ⟨"freeze", (localDirector db).autoRun⟩ }
  { db2 with
    session :=
      { db2.session with
        state := "frozen", endsAt := 0, nextStartsAt := 0,
        controllerId := stageId, updatedAt := now } }

/-- Embedding of `blackout` from Stage.jsx. -/
def blackout (stageId : String) (now : Int) (db : DB) : DB :=
  let db1 := ensureWorldInit now db
  let db2 := { db1 with director := some ⟨"blackout", (localDirector db).autoRun⟩ }
  { db2 with
    session :=
      { db2.session with
        state := "frozen", endsAt := 0, nextStartsAt := 0,
        controllerId := stageId, updatedAt := now } }

/-- Embedding of `resume` from Stage.jsx. -/
def resume (stageId : String) (now : Int) (db : DB) : DB :=
  let db1 := ensureWorldInit now db
  let db2 := { db1 with director := some ⟨"normal", (localDirector db).autoRun⟩ }
  { db2 with
    session :=
      { db2.session with
        state := "waiting", endsAt := 0, nextStartsAt := 0,
        controllerId := stageId, updatedAt := now } }

/-- Embedding of `restart` from Stage.jsx: clear the whole ledger, reset
World and Director (preserving `autoRun`), reset Session. -/
def restart (stageId : String) (now : Int) (db : DB) : DB :=
  { session := ⟨"waiting", 0, 0, 0, stageId, none, now⟩
    director := some ⟨"normal", (localDirector db).autoRun⟩
    world := some ⟨70, "stable", now, 0, none, none⟩
    votes := fun _ => [] }

/-- Embedding of `resetCurrentVotes` from Stage.jsx. -/
def resetCurrentVotes (db : DB) : DB :=
  if db.session.roundId = 0 then db
  else
    { db with
      votes := fun r' => if r' = db.session.roundId then [] else db.votes r' }

/-- Embedding of one evaluation of the auto-run scheduler effect in
Stage.jsx, restricted to its store writes (the locally scheduled timer is
not shared state).  A fresh `nextStartsAt` is written only when the stored
one is falsy (0) or not in the future. -/
def autoRunTick (stageId : String) (now : Int) (db : DB) : DB :=
  if (localDirector db).autoRun = false then db
  else if (localDirector db).mode ≠ "normal" then db
  else if ¬(db.session.controllerId = stageId ∨ db.session.controllerId = "") then db
  else if db.session.state ≠ "waiting" then db
  else if db.session.nextStartsAt = 0 ∨ db.session.nextStartsAt ≤ now then
    { db with
      session :=
        { db.session with nextStartsAt := now + WAIT_SECONDS * 1000, endsAt := 0 } }
  else db

/-! ### Audience voting client -/

/-- Local view of one audience device at the moment it tries to vote:
the subscribed Director/Session fields plus the device-local persisted
markers (`sx_last_action_ts`, `sx_normal_used_round`,
`sx_ability_used_round`). -/
structure AudienceCtx where
  mode : String
  sessionState : String
  roundId : Nat
  endsAt : Int
  now : Int
  lastActionTs : Int
  normalUsedRound : Nat
  abilityUsedRound : Nat
  role : String
  deviceId : String
deriving DecidableEq, Repr

/-- Audience `secondsLeft`: `Math.max(0, Math.ceil((endsAt - now)/1000))`.
Integer ceiling division is `(a + 999) / 1000` with euclidean division. -/
def secondsLeft (c : AudienceCtx) : Int :=
  max 0 ((c.endsAt - c.now + 999) / 1000)

/-- Audience `cooldownLeft`:
`Math.max(0, Math.ceil((COOLDOWN_MS - (now - lastActionTs))/1000))`. -/
def cooldownLeft (c : AudienceCtx) : Int :=
  max 0 ((COOLDOWN_MS - (c.now - c.lastActionTs) + 999) / 1000)

/-- Audience `modeBlocksInput`. -/
def modeBlocksInput (c : AudienceCtx) : Bool :=
  c.mode ≠ "normal" ∨ c.sessionState = "frozen"

/-- Audience `isActive`. -/
def isActive (c : AudienceCtx) : Bool :=
  ¬modeBlocksInput c ∧ c.sessionState = "active" ∧ c.roundId > 0 ∧
    secondsLeft c > 0

/-- Embedding of `sendVote` from the audience client.  On success it
returns the ledger entry pushed under `votes/{roundId}` together with the
updated device-local state (`lastActionTs` and the used-round marker of
the vote's kind); on any failed guard it returns `none` and nothing is
written. -/
def sendVote (c : AudienceCtx) (ty : String) (power : Int) (kind : String) :
    Option (VoteEntry × AudienceCtx) :=
  if isActive c = false then none
  else if cooldownLeft c ≠ 0 then none
  else if kind = "normal" ∧ c.normalUsedRound = c.roundId then none
  else if kind = "ability" ∧ c.abilityUsedRound = c.roundId then none
  else
    some
      (⟨ty, some power, kind, c.role, c.deviceId, c.now⟩,
        if kind = "normal" then
          { c with lastActionTs := c.now, normalUsedRound := c.roundId }
        else
          { c with lastActionTs := c.now, abilityUsedRound := c.roundId })

/-- Acceptance condition as worded by the spec (§4.5): normal director
mode, active session, positive round id, unexpired round, this kind not
yet used this round, and the device cooldown elapsed. -/
def specVoteAccepted (c : AudienceCtx) (kind : String) : Prop :=
  c.mode = "normal" ∧ c.sessionState = "active" ∧ c.roundId > 0 ∧
    c.endsAt > c.now ∧
    (if kind = "normal" then c.normalUsedRound ≠ c.roundId
     else c.abilityUsedRound ≠ c.roundId) ∧
    c.now - c.lastActionTs ≥ COOLDOWN_MS

/-- Componentwise addition of score triples (used to decompose the tally
loop). -/
def scoresAdd (a b : Scores) : Scores :=
  ⟨a.stable + b.stable, a.glitch + b.glitch, a.override + b.override⟩

/-- Maximum of the three scores. -/
def max3 (s : Scores) : Int :=
  max s.stable (max s.glitch s.override)

/-- Score of a named outcome (0 for an unknown name). -/
def scoreOf (name : String) (s : Scores) : Int :=
  if name = "stable" then s.stable
  else if name = "glitch" then s.glitch
  else if name = "override" then s.override
  else 0

/-! ### Aggregation lemmas -/

theorem foldl_addEntry (es : List VoteEntry) (acc : Scores) :
    es.foldl addEntry acc = scoresAdd acc (tally es) := by
  induction es generalizing acc with
  | nil =>
      simp only [List.foldl_nil, tally, scoresAdd]
      cases acc
      simp
  | cons e es ih =>
      simp only [List.foldl_cons, tally] at *
      rw [ih, ih (addEntry ⟨0, 0, 0⟩ e)]
      cases acc
      simp only [scoresAdd, addEntry, Scores.mk.injEq]
      refine ⟨by ring, by ring, by ring⟩

theorem tally_cons (e : VoteEntry) (es : List VoteEntry) :
    tally (e :: es) = scoresAdd (addEntry ⟨0, 0, 0⟩ e) (tally es) := by
  simp only [tally, List.foldl_cons]
  exact foldl_addEntry es (addEntry ⟨0, 0, 0⟩ e)

theorem tally_filter_type (es : List VoteEntry) :
    (tally es).stable = sumEffPower (es.filter fun e => e.type = "stable") ∧
      (tally es).glitch = sumEffPower (es.filter fun e => e.type = "glitch") ∧
      (tally es).override =
        sumEffPower (es.filter fun e => e.type = "override") := by
  induction es with
  | nil => simp [tally, sumEffPower]
  | cons e es ih =>
      obtain ⟨h1, h2, h3⟩ := ih
      rw [tally_cons]
      refine ⟨?_, ?_, ?_⟩ <;>
        simp only [scoresAdd, addEntry, List.filter_cons] <;>
        split <;>
        simp_all [sumEffPower]

theorem tally_total (es : List VoteEntry)
    (h : ∀ e ∈ es, e.type = "stable" ∨ e.type = "glitch" ∨ e.type = "override") :
    (tally es).stable + (tally es).glitch + (tally es).override =
      sumEffPower es := by
  induction es with
  | nil => simp [tally, sumEffPower]
  | cons e es ih =>
      have he := h e (List.mem_cons_self e es)
      have hrest : ∀ e' ∈ es,
          e'.type = "stable" ∨ e'.type = "glitch" ∨ e'.type = "override" :=
        fun e' he' => h e' (List.mem_cons_of_mem e he')
      rw [tally_cons]
      simp only [scoresAdd, addEntry, sumEffPower, List.map_cons, List.sum_cons]
      have := ih hrest
      simp only [sumEffPower] at this
      rcases he with h' | h' | h' <;> simp_all <;> omega

theorem sumEffPower_eq_sumPower (es : List VoteEntry)
    (h : ∀ e ∈ es, e.power = some 1 ∨ e.power = some 3) :
    sumEffPower es = sumPower es := by
  induction es with
  | nil => rfl
  | cons e es ih =>
      have he := h e (List.mem_cons_self e es)
      have hrest := fun e' he' => h e' (List.mem_cons_of_mem e he')
      simp only [sumEffPower, sumPower, List.map_cons, List.sum_cons] at *
      rw [ih hrest]
      rcases he with h' | h' <;> simp [effPower, rawPower, h']

instance : DecidablePred WellFormedEntry := fun e => by
  unfold WellFormedEntry
  infer_instance

theorem dominant_cases (s : Scores) :
    (s.glitch = max3 s ∧ dominantFromScores s = "glitch") ∨
      (s.glitch ≠ max3 s ∧ s.override = max3 s ∧
        dominantFromScores s = "override") ∨
      (s.glitch ≠ max3 s ∧ s.override ≠ max3 s ∧
        dominantFromScores s = "stable") := by
  unfold dominantFromScores max3
  split_ifs with h1 h2
  · exact Or.inl ⟨h1, rfl⟩
  · exact Or.inr (Or.inl ⟨h1, h2, rfl⟩)
  · exact Or.inr (Or.inr ⟨h1, h2, rfl⟩)

/-! ### Demonstration stores used by concrete evaluations -/

/-- Store whose ledger is empty for every round. -/
def emptyLedgerDB : DB :=
  { session := ⟨"active", 1, 21000, 0, "stage1", some "manual", 1000⟩
    director := some ⟨"normal", false⟩
    world := some ⟨70, "stable", 0, 0, none, none⟩
    votes := fun _ => [] }

/-- Store holding two well-formed votes for round 1. -/
def demoDB : DB :=
  { session := ⟨"active", 1, 21000, 0, "stage1", some "manual", 1000⟩
    director := some ⟨"normal", false⟩
    world := some ⟨70, "stable", 0, 0, none, none⟩
    votes := fun r =>
      if r = 1 then
        [⟨"stable", some 1, "normal", "Observer", "d1", 5⟩,
          ⟨"override", some 3, "ability", "Hacker", "d2", 6⟩]
      else [] }

/-! ### Claims about the vote aggregator -/

/-- Claim C1: for every round's ledger of well-formed entries, the lock-time
aggregation computes each per-type score as the sum of entry `power` of that
type, the persisted `lastScores` sum to the total power over the round's
entries, the persisted `lastDelta` equals
`stable*1 + glitch*(-2) + override*(-3)`, and the persisted stability is
`clamp(currentStability + delta, 0, 100)`. -/
theorem claim_C1_aggregator (db : DB) (stageId : String) (now : Int) (r : Nat)
    (h : ∀ e ∈ db.votes r, WellFormedEntry e) :
    (tally (db.votes r)).stable =
        sumPower ((db.votes r).filter fun e => e.type = "stable") ∧
      (tally (db.votes r)).glitch =
        sumPower ((db.votes r).filter fun e => e.type = "glitch") ∧
      (tally (db.votes r)).override =
        sumPower ((db.votes r).filter fun e => e.type = "override") ∧
      (tally (db.votes r)).stable + (tally (db.votes r)).glitch +
          (tally (db.votes r)).override = sumPower (db.votes r) ∧
      (lockTimerFire stageId now r db).world =
        some
          ⟨clamp
              (currentStability db +
                ((tally (db.votes r)).stable * 1 +
                  (tally (db.votes r)).glitch * (-2) +
                  (tally (db.votes r)).override * (-3)))
              0 100,
            dominantFromScores (tally (db.votes r)), now, r,
            some
              ((tally (db.votes r)).stable * 1 +
                (tally (db.votes r)).glitch * (-2) +
                (tally (db.votes r)).override * (-3)),
            some (tally (db.votes r))⟩ := by
  have htypes : ∀ e ∈ db.votes r,
      e.type = "stable" ∨ e.type = "glitch" ∨ e.type = "override" :=
    fun e he => (h e he).1
  have hpow : ∀ e ∈ db.votes r, e.power = some 1 ∨ e.power = some 3 :=
    fun e he => (h e he).2
  have hfilter : ∀ p : VoteEntry → Bool,
      sumEffPower ((db.votes r).filter p) = sumPower ((db.votes r).filter p) :=
    fun p =>
      sumEffPower_eq_sumPower _ fun e he => hpow e (List.mem_of_mem_filter he)
  obtain ⟨h1, h2, h3⟩ := tally_filter_type (db.votes r)
  refine ⟨?_, ?_, ?_, ?_, rfl⟩
  · rw [h1]; exact hfilter _
  · rw [h2]; exact hfilter _
  · rw [h3]; exact hfilter _
  · rw [tally_total (db.votes r) htypes]
    exact sumEffPower_eq_sumPower _ hpow

/-- Witness for claim C1 on a concrete two-vote ledger. -/
theorem claim_C1_witness :
    (tally (demoDB.votes 1)).stable + (tally (demoDB.votes 1)).glitch +
        (tally (demoDB.votes 1)).override = sumPower (demoDB.votes 1) :=
  (claim_C1_aggregator demoDB "stage1" 21000 1 (by decide)).2.2.2.1

/-- Claim C2: the dominant outcome is the argmax of the three scores, with
tie-break priority glitch first, then override, else stable; the spec's three
concrete tie-break examples hold. -/
theorem claim_C2_dominant_argmax (s : Scores) :
    scoreOf (dominantFromScores s) s = max3 s ∧
      (s.glitch = max3 s → dominantFromScores s = "glitch") ∧
      (s.glitch ≠ max3 s ∧ s.override = max3 s →
        dominantFromScores s = "override") ∧
      (s.glitch ≠ max3 s ∧ s.override ≠ max3 s →
        dominantFromScores s = "stable") ∧
      dominantFromScores ⟨5, 5, 5⟩ = "glitch" ∧
      dominantFromScores ⟨5, 0, 5⟩ = "override" ∧
      dominantFromScores ⟨5, 0, 0⟩ = "stable" := by
  have hmax : s.stable = max3 s ∨ s.glitch = max3 s ∨ s.override = max3 s := by
    unfold max3
    omega
  refine ⟨?_, ?_, ?_, ?_, by decide, by decide, by decide⟩
  · rcases dominant_cases s with ⟨h1, h2⟩ | ⟨h1, h2, h3⟩ | ⟨h1, h2, h3⟩
    · rw [h2]; simp [scoreOf, h1]
    · rw [h3]; simp [scoreOf, h2]
    · rw [h3]
      simp only [scoreOf, if_pos rfl]
      rcases hmax with h | h | h
      · exact h
      · exact absurd h h1
      · exact absurd h h2
  · intro hg
    rcases dominant_cases s with ⟨_, h2⟩ | ⟨h1, _, _⟩ | ⟨h1, _, _⟩
    · exact h2
    · exact absurd hg h1
    · exact absurd hg h1
  · rintro ⟨hg, ho⟩
    rcases dominant_cases s with ⟨h1, _⟩ | ⟨_, _, h3⟩ | ⟨_, h2, _⟩
    · exact absurd h1 hg
    · exact h3
    · exact absurd ho h2
  · rintro ⟨hg, ho⟩
    rcases dominant_cases s with ⟨h1, _⟩ | ⟨_, h2, _⟩ | ⟨_, _, h3⟩
    · exact absurd h1 hg
    · exact absurd h2 ho
    · exact h3

/-- Witness for claim C2 at the all-equal tie. -/
theorem claim_C2_witness :
    scoreOf (dominantFromScores ⟨5, 5, 5⟩) ⟨5, 5, 5⟩ = max3 ⟨5, 5, 5⟩ ∧
      dominantFromScores ⟨5, 5, 5⟩ = "glitch" :=
  ⟨(claim_C2_dominant_argmax ⟨5, 5, 5⟩).1,
    (claim_C2_dominant_argmax ⟨5, 5, 5⟩).2.1 (by decide)⟩

/-- Claim C3 counterexample: with an empty ledger the lock-timer handler
persists `dominant = "glitch"` (the all-zero tie is won by the glitch-first
tie-break), not the claimed `stable` default. -/
theorem claim_C3_counterexample :
    (lockTimerFire "stage1" 21000 1 emptyLedgerDB).world =
        some ⟨70, "glitch", 21000, 1, some 0, some ⟨0, 0, 0⟩⟩ ∧
      ((lockTimerFire "stage1" 21000 1 emptyLedgerDB).world.map
          World.dominant) ≠ some "stable" := by
  constructor
  · decide
  · decide

/-- Claim C3 (amended): when the lock-timer fires on an empty ledger the
aggregator still runs and persists `delta = 0`, the unchanged clamped
stability, and `dominant = "glitch"` (all-zero scores tie, glitch-first). -/
theorem claim_C3_amended_empty_ledger (db : DB) (stageId : String) (now : Int)
    (r : Nat) (h : db.votes r = []) :
    (lockTimerFire stageId now r db).world =
      some ⟨clamp (currentStability db + 0) 0 100, "glitch", now, r, some 0,
        some ⟨0, 0, 0⟩⟩ := by
  have ht : tally (db.votes r) = ⟨0, 0, 0⟩ := by rw [h]; rfl
  have hd : dominantFromScores ⟨0, 0, 0⟩ = "glitch" := by decide
  have hc : calcDelta ⟨0, 0, 0⟩ = 0 := by decide
  simp only [lockTimerFire, ht, hd, hc]

/-- Witness for the amended claim C3 at a concrete store. -/
theorem claim_C3_witness :
    (lockTimerFire "stage1" 30000 2 emptyLedgerDB).world =
      some ⟨clamp (currentStability emptyLedgerDB + 0) 0 100, "glitch", 30000,
        2, some 0, some ⟨0, 0, 0⟩⟩ :=
  claim_C3_amended_empty_ledger emptyLedgerDB "stage1" 30000 2 rfl

/-- Claim C10: an entry with an absent or zero `power` field is counted with
power 1, and an entry with an unrecognized `type` contributes to none of the
scores; each entry's contribution combines additively, so aggregation is
total on malformed entries. -/
theorem claim_C10_malformed_entries (e : VoteEntry) (es : List VoteEntry) :
    tally (e :: es) = scoresAdd (addEntry ⟨0, 0, 0⟩ e) (tally es) ∧
      ((e.power = none ∨ e.power = some 0) → effPower e = 1) ∧
      ((e.type ≠ "stable" ∧ e.type ≠ "glitch" ∧ e.type ≠ "override") →
        tally (e :: es) = tally es) := by
  refine ⟨tally_cons e es, ?_, ?_⟩
  · rintro (h | h) <;> simp [effPower, h]
  · rintro ⟨h1, h2, h3⟩
    rw [tally_cons]
    have hz : addEntry ⟨0, 0, 0⟩ e = ⟨0, 0, 0⟩ := by
      simp [addEntry, h1, h2, h3]
    rw [hz]
    cases htl : tally es
    simp [scoresAdd]

/-- Witness for claim C10 on a concrete malformed entry. -/
theorem claim_C10_witness :
    effPower ⟨"banana", none, "normal", "", "d9", 0⟩ = 1 ∧
      tally [(⟨"banana", none, "normal", "", "d9", 0⟩ : VoteEntry)] =
        tally [] :=
  ⟨(claim_C10_malformed_entries ⟨"banana", none, "normal", "", "d9", 0⟩ []).2.1
      (Or.inl rfl),
    (claim_C10_malformed_entries ⟨"banana", none, "normal", "", "d9", 0⟩ []).2.2
      (by decide)⟩

/-! ### Store-transformer lemmas -/

theorem applyOps_append (db : DB) (l1 l2 : List StoreOp) :
    applyOps db (l1 ++ l2) = applyOps (applyOps db l1) l2 := by
  simp [applyOps, List.foldl_append]

theorem ensure_session (now : Int) (db : DB) :
    (ensureWorldInit now db).session = db.session := by
  unfold ensureWorldInit ensureWorldInitOps
  cases hw : db.world <;> cases hd : db.director <;>
    simp [applyOps, applyOp]

theorem ensure_mode (now : Int) (db : DB) :
    directorMode (ensureWorldInit now db) = directorMode db := by
  unfold ensureWorldInit ensureWorldInitOps directorMode
  cases hw : db.world <;> cases hd : db.director <;>
    simp [applyOps, applyOp, hw, hd]

theorem ensure_votes (now : Int) (db : DB) :
    (ensureWorldInit now db).votes = db.votes := by
  unfold ensureWorldInit ensureWorldInitOps
  cases hw : db.world <;> cases hd : db.director <;>
    simp [applyOps, applyOp]

theorem ensure_ops_no_session (db : DB) (now : Int) :
    ∀ op ∈ ensureWorldInitOps db now, op.isSessionWrite = false := by
  intro op hop
  unfold ensureWorldInitOps at hop
  cases hw : db.world <;> cases hd : db.director <;>
    simp [hw, hd] at hop <;>
    first
      | (rw [hop]; rfl)
      | (rcases hop with hop | hop <;> rw [hop] <;> rfl)

theorem localDirector_mode (db : DB) :
    (localDirector db).mode = directorMode db := by
  cases hd : db.director <;> simp [localDirector, directorMode, hd]

theorem startRoundOps_rejected (db : DB) (stageId : String) (now : Int)
    (reason : String)
    (h : directorMode db ≠ "normal" ∨
      (db.session.controllerId ≠ "" ∧ db.session.controllerId ≠ stageId)) :
    startRoundOps stageId now reason db = ensureWorldInitOps db now := by
  simp only [startRoundOps, ensure_mode, ensure_session]
  rcases h with h | h
  · rw [if_pos h]
  · by_cases hm : directorMode db ≠ "normal"
    · rw [if_pos hm]
    · rw [if_neg hm, if_pos h]

theorem startRound_rejected_session (db : DB) (stageId : String) (now : Int)
    (reason : String)
    (h : directorMode db ≠ "normal" ∨
      (db.session.controllerId ≠ "" ∧ db.session.controllerId ≠ stageId)) :
    (startRound stageId now reason db).session = db.session := by
  unfold startRound
  rw [startRoundOps_rejected db stageId now reason h]
  exact ensure_session now db

theorem autoRunTick_future_noop (stageId : String) (now : Int) (db : DB)
    (h1 : db.session.nextStartsAt ≠ 0) (h2 : now < db.session.nextStartsAt) :
    autoRunTick stageId now db = db := by
  unfold autoRunTick
  split_ifs with g1 g2 g3 g4 g5 <;>
    first
      | rfl
      | (exfalso; rcases g5 with g | g <;> omega)

theorem autoRunTick_cases (stageId : String) (now : Int) (db : DB) :
    autoRunTick stageId now db = db ∨
      ((localDirector db).autoRun = true ∧
        (localDirector db).mode = "normal" ∧
        (db.session.controllerId = stageId ∨ db.session.controllerId = "") ∧
        db.session.state = "waiting" ∧
        autoRunTick stageId now db =
          { db with
            session :=
              { db.session with
                nextStartsAt := now + WAIT_SECONDS * 1000, endsAt := 0 } }) := by
  unfold autoRunTick
  split_ifs with g1 g2 g3 g4 g5 <;>
    first
      | exact Or.inl rfl
      | exact Or.inr
          ⟨by revert g1; cases (localDirector db).autoRun <;> simp,
            not_not.mp g2, g3, not_not.mp g4, rfl⟩

/-! ### Audience client lemmas -/

theorem cooldownLeft_eq_zero_iff (c : AudienceCtx) :
    cooldownLeft c = 0 ↔ c.now - c.lastActionTs ≥ COOLDOWN_MS := by
  unfold cooldownLeft COOLDOWN_MS
  omega

theorem isActive_iff (c : AudienceCtx) :
    isActive c = true ↔
      c.mode = "normal" ∧ c.sessionState = "active" ∧ 0 < c.roundId ∧
        c.now < c.endsAt := by
  unfold isActive modeBlocksInput secondsLeft
  constructor
  · intro h
    simp only [decide_eq_true_eq] at h
    obtain ⟨hblock, hs, hr, hsec⟩ := h
    rw [not_or] at hblock
    exact ⟨not_not.mp hblock.1, hs, hr, by omega⟩
  · rintro ⟨hm, hs, hr, he⟩
    simp only [decide_eq_true_eq]
    refine ⟨?_, hs, hr, by omega⟩
    rw [not_or]
    exact ⟨not_not.mpr hm, by rw [hs]; decide⟩

theorem sendVote_isSome_iff (c : AudienceCtx) (ty : String) (p : Int)
    (kind : String) :
    (sendVote c ty p kind).isSome ↔
      isActive c = true ∧ cooldownLeft c = 0 ∧
        ¬(kind = "normal" ∧ c.normalUsedRound = c.roundId) ∧
        ¬(kind = "ability" ∧ c.abilityUsedRound = c.roundId) := by
  unfold sendVote
  split_ifs with g1 g2 g3 g4 <;> simp_all

/-! ### Demonstration audience contexts and stores -/

/-- Audience device looking at an active round 3, no prior votes. -/
def demoCtx : AudienceCtx :=
  ⟨"normal", "active", 3, 100000, 50000, 0, 0, 0, "Hacker", "d1"⟩

/-- The ledger entry the device pushes for its first normal vote. -/
def demoEntry : VoteEntry :=
  ⟨"stable", some 1, "normal", "Hacker", "d1", 50000⟩

/-- Device-local state right after the normal vote of `demoCtx`. -/
def demoCtxAfter : AudienceCtx :=
  ⟨"normal", "active", 3, 100000, 50000, 50000, 3, 0, "Hacker", "d1"⟩

/-- The same device 2 seconds later (cooldown elapsed), same round. -/
def demoCtxLater : AudienceCtx :=
  ⟨"normal", "active", 3, 100000, 52000, 50000, 3, 0, "Hacker", "d1"⟩

/-- Store in the frozen state reached by a freeze action. -/
def frozenDB : DB :=
  { session := ⟨"frozen", 4, 0, 0, "stage1", none, 0⟩
    director := some ⟨"freeze", true⟩
    world := some ⟨50, "glitch", 0, 4, some (-20), some ⟨1, 2, 3⟩⟩
    votes := fun _ => [] }

/-- Store waiting with a future auto-run countdown. -/
def waitingDB : DB :=
  { session := ⟨"waiting", 2, 0, 5000, "stage1", none, 0⟩
    director := some ⟨"normal", true⟩
    world := some ⟨70, "stable", 0, 2, none, none⟩
    votes := fun _ => [] }

/-! ### Claims about the voting client and the round scheduler -/

/-- Claim C4: the audience client writes a vote to the ledger exactly when
director mode is normal, the session is active with a positive round id, the
round is unexpired, the device cooldown has elapsed, and the device has not
already used this vote kind this round; a device that cast a normal vote for
a round is rejected on a second normal vote but may still cast an ability
vote in that round. -/
theorem claim_C4_vote_acceptance (c : AudienceCtx) (ty : String) (p : Int) :
    ((sendVote c ty p "normal").isSome ↔ specVoteAccepted c "normal") ∧
      ((sendVote c ty p "ability").isSome ↔ specVoteAccepted c "ability") ∧
      sendVote demoCtx "stable" 1 "normal" = some (demoEntry, demoCtxAfter) ∧
      sendVote demoCtxLater "glitch" 1 "normal" = none ∧
      (sendVote demoCtxLater "override" 3 "ability").isSome = true := by
  refine ⟨?_, ?_, by decide, by decide, by decide⟩
  · rw [sendVote_isSome_iff, isActive_iff, cooldownLeft_eq_zero_iff]
    unfold specVoteAccepted
    rw [if_pos rfl]
    constructor
    · rintro ⟨⟨hm, hs, hr, he⟩, hcd, hn, _⟩
      exact ⟨hm, hs, hr, he, fun h => hn ⟨rfl, h⟩, hcd⟩
    · rintro ⟨hm, hs, hr, he, hn, hcd⟩
      exact ⟨⟨hm, hs, hr, he⟩, hcd, fun hx => hn hx.2,
        fun hx => absurd hx.1 (by decide)⟩
  · rw [sendVote_isSome_iff, isActive_iff, cooldownLeft_eq_zero_iff]
    unfold specVoteAccepted
    rw [if_neg (by decide)]
    constructor
    · rintro ⟨⟨hm, hs, hr, he⟩, hcd, _, ha⟩
      exact ⟨hm, hs, hr, he, fun h => ha ⟨rfl, h⟩, hcd⟩
    · rintro ⟨hm, hs, hr, he, ha, hcd⟩
      exact ⟨⟨hm, hs, hr, he⟩, hcd, fun hx => absurd hx.1 (by decide),
        fun hx => ha hx.2⟩

/-- Witness for claim C4 at the post-vote device state. -/
theorem claim_C4_witness :
    (sendVote demoCtxLater "glitch" 1 "normal").isSome = false ∧
      (sendVote demoCtxLater "override" 3 "ability").isSome = true := by
  have h := claim_C4_vote_acceptance demoCtxLater "glitch" 1
  refine ⟨?_, h.2.2.2.2⟩
  rw [h.2.2.2.1]
  rfl

/-- Claim C5: `startRound` called while director mode is not normal, or while
a different non-empty controller id is stored, issues no Session write and
leaves the Session record unchanged, and two such calls in rapid succession
are both rejected. -/
theorem claim_C5_startRound_rejected (db : DB) (stageId : String)
    (now now2 : Int) (reason reason2 : String)
    (h : directorMode db ≠ "normal" ∨
      (db.session.controllerId ≠ "" ∧ db.session.controllerId ≠ stageId)) :
    (startRound stageId now reason db).session = db.session ∧
      (∀ op ∈ startRoundOps stageId now reason db, op.isSessionWrite = false) ∧
      (startRound stageId now2 reason2
          (startRound stageId now reason db)).session = db.session := by
  refine ⟨startRound_rejected_session db stageId now reason h, ?_, ?_⟩
  · rw [startRoundOps_rejected db stageId now reason h]
    exact ensure_ops_no_session db now
  · have h' : directorMode (startRound stageId now reason db) ≠ "normal" ∨
        ((startRound stageId now reason db).session.controllerId ≠ "" ∧
          (startRound stageId now reason db).session.controllerId ≠ stageId) := by
      unfold startRound
      rw [startRoundOps_rejected db stageId now reason h]
      rcases h with h | h
      · refine Or.inl ?_
        show directorMode (ensureWorldInit now db) ≠ "normal"
        rw [ensure_mode]
        exact h
      · refine Or.inr ?_
        show (ensureWorldInit now db).session.controllerId ≠ "" ∧
          (ensureWorldInit now db).session.controllerId ≠ stageId
        rw [ensure_session]
        exact h
    rw [startRound_rejected_session _ stageId now2 reason2 h',
      startRound_rejected_session db stageId now reason h]

/-- Witness for claim C5: a manual start against a frozen director. -/
theorem claim_C5_witness :
    (startRound "stage1" 7 "manual" frozenDB).session = frozenDB.session :=
  (claim_C5_startRound_rejected frozenDB "stage1" 7 8 "manual" "manual"
      (Or.inl (by decide))).1

/-- Claim C6: when the guards pass, `startRound` first removes the vote
subtree of the incremented round id and only then writes the Session record
with state active, the incremented round id, `endsAt = now + 20s`,
`nextStartsAt = 0`, the start reason, and the caller as controller. -/
theorem claim_C6_startRound_effects (db : DB) (stageId : String) (now : Int)
    (reason : String) (hm : directorMode db = "normal")
    (hc : db.session.controllerId = "" ∨ db.session.controllerId = stageId) :
    startRoundOps stageId now reason db =
        ensureWorldInitOps db now ++
          [StoreOp.removeVotesOp (db.session.roundId + 1),
            StoreOp.setSessionOp
              ⟨"active", db.session.roundId + 1, now + ACTIVE_SECONDS * 1000,
                0, stageId, some reason, now⟩] ∧
      (startRound stageId now reason db).votes (db.session.roundId + 1) = [] ∧
      (startRound stageId now reason db).session =
        ⟨"active", db.session.roundId + 1, now + ACTIVE_SECONDS * 1000, 0,
          stageId, some reason, now⟩ := by
  have hops : startRoundOps stageId now reason db =
      ensureWorldInitOps db now ++
        [StoreOp.removeVotesOp (db.session.roundId + 1),
          StoreOp.setSessionOp
            ⟨"active", db.session.roundId + 1, now + ACTIVE_SECONDS * 1000, 0,
              stageId, some reason, now⟩] := by
    simp only [startRoundOps, ensure_mode, ensure_session]
    rw [if_neg (not_not.mpr hm), if_neg]
    rintro ⟨h1, h2⟩
    rcases hc with hc | hc
    · exact h1 hc
    · exact h2 hc
  refine ⟨hops, ?_, ?_⟩
  · unfold startRound
    rw [hops, applyOps_append]
    simp [applyOps, applyOp]
  · unfold startRound
    rw [hops, applyOps_append]
    simp [applyOps, applyOp]

/-- Witness for claim C6 on a concrete store. -/
theorem claim_C6_witness :
    (startRound "stage1" 50 "auto" demoDB).session =
      ⟨"active", demoDB.session.roundId + 1, 50 + ACTIVE_SECONDS * 1000, 0,
        "stage1", some "auto", 50⟩ :=
  (claim_C6_startRound_effects demoDB "stage1" 50 "auto" (by decide)
      (Or.inr (by decide))).2.2

/-- Claim C7: after restart the Session is waiting at round 0 with the caller
as controller, the World is back to the 70/stable default, the whole vote
ledger is empty, and the Director is normal with `autoRun` preserved. -/
theorem claim_C7_restart (db : DB) (stageId : String) (now : Int) :
    (restart stageId now db).session.state = "waiting" ∧
      (restart stageId now db).session.roundId = 0 ∧
      (restart stageId now db).session.controllerId = stageId ∧
      (restart stageId now db).world = some ⟨70, "stable", now, 0, none, none⟩ ∧
      (∀ r, (restart stageId now db).votes r = []) ∧
      (restart stageId now db).director =
        some ⟨"normal", (localDirector db).autoRun⟩ :=
  ⟨rfl, rfl, rfl, rfl, fun _ => rfl, rfl⟩

/-- Witness for claim C7 on a concrete store. -/
theorem claim_C7_witness :
    (restart "stage2" 999 frozenDB).session.roundId = 0 ∧
      (restart "stage2" 999 frozenDB).director = some ⟨"normal", true⟩ :=
  ⟨(claim_C7_restart frozenDB "stage2" 999).2.1,
    (claim_C7_restart frozenDB "stage2" 999).2.2.2.2.2⟩

/-- Claim C8 counterexample: toggling auto-run on while the session is
frozen writes `session.state = "waiting"` even though the director mode is
still `freeze`, so an operation other than resume and restart does leave the
frozen state. -/
theorem claim_C8_counterexample :
    frozenDB.session.state = "frozen" ∧
      (setAutoRun true 100 frozenDB).session.state = "waiting" ∧
      (setAutoRun true 100 frozenDB).director = some ⟨"freeze", true⟩ := by
  refine ⟨rfl, ?_, ?_⟩ <;> decide

/-- Claim C8 (amended): while the session is frozen and the director mode is
not normal (the situation freeze and blackout establish), the frozen state is
left only via resume, restart, or `setAutoRun(true)`; `startRound`, turning
auto-run off, resetting the round's votes, freeze, blackout, and the auto-run
scheduler all leave `session.state = "frozen"`. -/
theorem claim_C8_frozen_exits (db : DB) (stageId : String) (now : Int)
    (reason : String) (hfrozen : db.session.state = "frozen")
    (hmode : directorMode db ≠ "normal") :
    (startRound stageId now reason db).session.state = "frozen" ∧
      (setAutoRun false now db).session.state = "frozen" ∧
      (resetCurrentVotes db).session.state = "frozen" ∧
      (freeze stageId now db).session.state = "frozen" ∧
      (blackout stageId now db).session.state = "frozen" ∧
      (autoRunTick stageId now db).session.state = "frozen" ∧
      (resume stageId now db).session.state = "waiting" ∧
      (restart stageId now db).session.state = "waiting" ∧
      (setAutoRun true now db).session.state = "waiting" := by
  refine ⟨?_, ?_, ?_, rfl, rfl, ?_, rfl, rfl, ?_⟩
  · rw [startRound_rejected_session db stageId now reason (Or.inl hmode)]
    exact hfrozen
  · show (ensureWorldInit now db).session.state = "frozen"
    rw [ensure_session]
    exact hfrozen
  · have hsess : (resetCurrentVotes db).session = db.session := by
      unfold resetCurrentVotes
      split_ifs <;> rfl
    rw [hsess]
    exact hfrozen
  · have hnoop : autoRunTick stageId now db = db := by
      unfold autoRunTick
      split_ifs with g1 g2 g3 g4 g5 <;>
        first
          | rfl
          | exact absurd (localDirector_mode db ▸ not_not.mp g2) hmode
    rw [hnoop]
    exact hfrozen
  · show ({ ensureWorldInit now db with
        director := some ⟨(localDirector db).mode, true⟩,
        session := { (ensureWorldInit now db).session with
          state := "waiting" } } : DB).session.state = "waiting"
    rfl

/-- Witness for the amended claim C8 at the concrete frozen store. -/
theorem claim_C8_witness :
    (startRound "stage1" 10 "manual" frozenDB).session.state = "frozen" ∧
      (resume "stage1" 10 frozenDB).session.state = "waiting" :=
  ⟨(claim_C8_frozen_exits frozenDB "stage1" 10 "manual" rfl (by decide)).1,
    (claim_C8_frozen_exits frozenDB "stage1" 10 "manual" rfl
        (by decide)).2.2.2.2.2.2.1⟩

/-- Claim C9: the auto-run scheduler never overwrites a future countdown
(re-evaluation with `nextStartsAt` strictly in the future is a no-op on the
store), it writes `nextStartsAt = now + WAIT_DURATION` with `endsAt` cleared
exactly when the stored value is unset or in the past, and re-evaluating
twice at the same instant equals evaluating once. -/
theorem claim_C9_autorun_idempotent (db : DB) (stageId : String) (now : Int) :
    (db.session.nextStartsAt ≠ 0 ∧ now < db.session.nextStartsAt →
        autoRunTick stageId now db = db) ∧
      ((localDirector db).autoRun = true ∧ (localDirector db).mode = "normal" ∧
        (db.session.controllerId = stageId ∨ db.session.controllerId = "") ∧
        db.session.state = "waiting" ∧
        (db.session.nextStartsAt = 0 ∨ db.session.nextStartsAt ≤ now) →
        (autoRunTick stageId now db).session.nextStartsAt =
            now + WAIT_SECONDS * 1000 ∧
          (autoRunTick stageId now db).session.endsAt = 0) ∧
      (0 ≤ now →
        autoRunTick stageId now (autoRunTick stageId now db) =
          autoRunTick stageId now db) := by
  refine ⟨?_, ?_, ?_⟩
  · rintro ⟨h1, h2⟩
    exact autoRunTick_future_noop stageId now db h1 h2
  · rintro ⟨h1, h2, h3, h4, h5⟩
    unfold autoRunTick
    rw [if_neg (by simp [h1]), if_neg (not_not.mpr h2),
      if_neg (not_not.mpr h3), if_neg (not_not.mpr h4), if_pos h5]
    exact ⟨rfl, rfl⟩
  · intro hnow
    rcases autoRunTick_cases stageId now db with hW | ⟨_, _, _, _, hW⟩
    · rw [hW]
      exact hW
    · rw [hW]
      apply autoRunTick_future_noop
      · show now + WAIT_SECONDS * 1000 ≠ 0
        unfold WAIT_SECONDS
        omega
      · show now < now + WAIT_SECONDS * 1000
        unfold WAIT_SECONDS
        omega

/-- Witness for claim C9: a future countdown is left untouched. -/
theorem claim_C9_witness :
    autoRunTick "stage1" 1000 waitingDB = waitingDB :=
  (claim_C9_autorun_idempotent waitingDB "stage1" 1000).1 (by decide)

end SimulationX
